import Mathlib

/-!
Verification of the hydration-reminder overlay engine (`drink_reminder.py`).

This file gives a shallow embedding of the scheduling, formatting,
placement, configuration-deserialization and lifecycle logic of the
source, and proves the specified properties about it.

Conventions:
* Python `int` is modelled as `Int`; Python `//` and `%` (floor
  division / floor modulus) as `Int.fdiv` / `Int.fmod`.
* Python `float` values that flow through configuration parsing are
  modelled by `PyFloat`: finite doubles as exact rationals plus the
  special values `inf`, `-inf` and `nan`.  IEEE rounding of finite
  values (and underflow to zero) is abstracted — finite values stay
  exact — while everything that changes control flow or surface output
  is modelled: the `OverflowError` of `int()` on infinite floats and of
  `float()` on out-of-range ints, saturation of string parsing to
  infinity, underscore grouping and exponent and `inf`/`nan` literals,
  and the positional/scientific `str()` format.
* Fallible Python code returns `Except PyExc`; `AppConfig.from_dict`
  propagates the `OverflowError` its helpers do not catch.
* Qt timers are modelled as optional absolute deadlines; `random.randint`
  draws are passed in as explicit parameters constrained by hypotheses.
-/

/-- `startsSeq pat cs` : `pat` is an initial segment of `cs`
(character-list version of Python string matching). -/
def startsSeq : List Char → List Char → Bool
  | [], _ => true
  | _ :: _, [] => false
  | p :: ps, c :: cs => p == c && startsSeq ps cs

/-- `containsSeq pat cs` : `pat` occurs contiguously inside `cs`. -/
def containsSeq (pat : List Char) : List Char → Bool
  | [] => startsSeq pat []
  | c :: cs => startsSeq pat (c :: cs) || containsSeq pat cs

/-- The Python `pat in s` substring test on strings. -/
def strContains (s pat : String) : Bool :=
  containsSeq pat.toList s.toList

/-- `format_interval` (source lines 115-128): render a large interval in
whole hours/minutes, or `"less than a minute"` when both are zero. -/
def format_interval (milliseconds : Int) : String :=
  let minutes_total := max 0 (Int.fdiv milliseconds 60000)
  let hours := Int.fdiv minutes_total 60
  let minutes := Int.fmod minutes_total 60
  let parts : List String :=
    (if hours ≠ 0 then [toString hours ++ " hour" ++ (if hours ≠ 1 then "s" else "")] else []) ++
    (if minutes ≠ 0 then [toString minutes ++ " minute" ++ (if minutes ≠ 1 then "s" else "")] else [])
  if parts = [] then "less than a minute"
  else String.intercalate " " parts

/-- `format_short_duration` (source lines 131-147): short h/m/s countdown
text; non-positive remaining time renders as `"now"`. -/
def format_short_duration (milliseconds : Int) : String :=
  if milliseconds ≤ 0 then "now"
  else
    let seconds_total := Int.fdiv milliseconds 1000
    let hours := Int.fdiv seconds_total 3600
    let remainder := Int.fmod seconds_total 3600
    let minutes := Int.fdiv remainder 60
    let seconds := Int.fmod remainder 60
    let parts : List String :=
      (if hours ≠ 0 then [toString hours ++ "h"] else []) ++
      (if minutes ≠ 0 ∨ hours ≠ 0 then [toString minutes ++ "m"] else []) ++
      (if hours = 0 then [toString seconds ++ "s"] else [])
    String.intercalate " " parts

/-- The available geometry of a screen (`QScreen.availableGeometry`). -/
structure Rect where
  x : Int
  y : Int
  width : Int
  height : Int
deriving DecidableEq, Repr

/-- `ReminderOverlay.position_overlay` (source lines 809-834), as a pure
function of the target screen geometry, the current extent of the widget
(`self.width()`, `self.height()`), the configured anchor string
(`config.position`, tested by substring as in the source) and the raw
configured margins.  Returns the `(x, y)` passed to `self.move`. -/
def position_overlay (geo : Rect) (width height : Int) (position : String)
    (config_margin_x config_margin_y : Int) : Int × Int :=
  let margin_x := max 0 config_margin_x
  let margin_y := max 0 config_margin_y
  let x := if strContains position "right" then geo.x + geo.width - width - margin_x
           else geo.x + margin_x
  let y := if strContains position "bottom" then geo.y + geo.height - height - margin_y
           else geo.y + margin_y
  let x := max geo.x (min x (geo.x + geo.width - width))
  let y := max geo.y (min y (geo.y + geo.height - height))
  (x, y)

/-- Kind of the transition-animation run currently owned by the overlay
(`self.active_animation`): the entry effect started by
`run_entry_animation` or the exit effect started by `run_exit_animation`. -/
inductive AnimKind where
  | entry
  | exit
deriving DecidableEq, Repr

/-- The lifecycle-relevant state of a `ReminderOverlay` (source lines
601-994).  Qt single-shot timers are modelled as optional absolute fire
deadlines (`none` = not running); `QDateTime.currentDateTime()` is the
explicit `now` argument of each operation.  Fields:

* `preview`        : `self.preview`; in the source, `auto_hide_timer`,
                     `reminder_timer` and `countdown_timer` are `None`
                     exactly when `preview` is true (lines 638-655).
* `cfg_*`          : the relevant `AppConfig` fields read by the engine.
* `has_frames`     : `self.frame_pixmaps` is non-empty.
* `has_movie`      : `self.fallback_movie` is not `None`.
* `animation_index`: `self.animation_index` (the displayed static frame).
* `anim_timer_active` : `self.animation_timer.isActive()`.
* `movie_running`  : the fallback movie is playing.
* `active_animation` : `self.active_animation`, as its run kind.
* `auto_hide_deadline`, `reminder_deadline` : fire times of the single-shot
  `auto_hide_timer` / `reminder_timer`.
* `next_reminder`  : `self.next_reminder` as epoch milliseconds.
* `visible`        : `self.isVisible()` (`show`/`hide`). -/
structure Overlay where
  preview : Bool
  cfg_interval : Int
  cfg_random_offset : Int
  cfg_auto_hide : Int
  cfg_anim_enabled : Bool
  cfg_entry_animation : String
  has_frames : Bool
  has_movie : Bool
  animation_index : Int
  anim_timer_active : Bool
  movie_running : Bool
  active_animation : Option AnimKind
  auto_hide_deadline : Option Int
  reminder_deadline : Option Int
  next_reminder : Int
  visible : Bool
deriving DecidableEq, Repr

/-- `ReminderOverlay.schedule_next_reminder` (source lines 706-717).
`draw` is the value returned by `random.randint(0, random_offset_ms)`
when that call happens (`random_offset_ms > 0`); callers constrain it to
`[0, random_offset_ms]`.  In the source `self.reminder_timer is None`
exactly when `self.preview`, so the guard collapses to the preview test. -/
def schedule_next_reminder (s : Overlay) (now draw : Int) : Overlay :=
  if s.preview then s
  else
    let interval_ms := s.cfg_interval + (if s.cfg_random_offset > 0 then draw else 0)
    let interval_ms := max 1000 interval_ms
    { s with next_reminder := now + interval_ms,
             reminder_deadline := some (now + interval_ms) }

/-- Effect of `ReminderOverlay.apply_config` (source lines 699-704) on the
sprite-tick timer: started exactly when animation is enabled and some
asset (frames or movie) is loaded, stopped otherwise. -/
def apply_config_effects (s : Overlay) : Overlay :=
  if s.cfg_anim_enabled ∧ (s.has_frames ∨ s.has_movie) then
    { s with anim_timer_active := true }
  else
    { s with anim_timer_active := false }

/-- `ReminderOverlay.run_entry_animation` (source lines 883-927): for the
styles `fade`, `slide` and `pop` an entry run is handed to
`_start_animation` (replacing any active run); any other style only snaps
the window opacity and starts no run. -/
def run_entry_animation (s : Overlay) : Overlay :=
  if s.preview then s
  else if s.cfg_entry_animation = "fade" ∨ s.cfg_entry_animation = "slide"
      ∨ s.cfg_entry_animation = "pop" then
    { s with active_animation := some AnimKind.entry }
  else s

/-- `ReminderOverlay.show_overlay` (source lines 731-758): re-applies the
configuration, resets the sprite state, arms the auto-hide timeout
(non-preview), shows the window and starts the entry effect. -/
def show_overlay (s : Overlay) (now : Int) : Overlay :=
  let s := apply_config_effects s
  let s :=
    if s.cfg_anim_enabled ∧ s.has_frames then
      { s with animation_index := 0, anim_timer_active := true }
    else if s.has_movie ∧ s.cfg_anim_enabled then
      { s with movie_running := true }
    else s
  let s := if ¬s.preview then { s with auto_hide_deadline := some (now + s.cfg_auto_hide) }
           else s
  let s := { s with visible := true }
  if ¬s.preview then run_entry_animation s else s

/-- `ReminderOverlay.trigger_reminder` (source lines 719-723): the fired
reminder timer first re-arms the schedule, then shows the overlay. -/
def trigger_reminder (s : Overlay) (now draw : Int) : Overlay :=
  if s.preview then s
  else show_overlay (schedule_next_reminder s now draw) now

/-- `ReminderOverlay.hide_overlay` (source lines 760-780): stops the
auto-hide timeout, the sprite tick and the movie, cancels any active
transition run without invoking its callback, then either starts the exit
run (styles `fade`/`slide`/`pop`, which hide on natural completion) or
hides immediately. -/
def hide_overlay (s : Overlay) : Overlay :=
  if s.preview then { s with visible := false }
  else
    let s := { s with auto_hide_deadline := none, anim_timer_active := false }
    let s := if s.has_movie then { s with movie_running := false } else s
    let s := { s with active_animation := none }
    if s.cfg_entry_animation = "fade" ∨ s.cfg_entry_animation = "slide"
        ∨ s.cfg_entry_animation = "pop" then
      { s with active_animation := some AnimKind.exit }
    else
      { s with visible := false }

/-- Natural completion of the active transition run (`cleanup` inside
`_start_animation`, source lines 873-879, plus the per-style `finalize`
closures): an exit run hides the window via `on_finished`; an entry run
only restores opacity/geometry. -/
def animation_finish (s : Overlay) : Overlay :=
  match s.active_animation with
  | some AnimKind.exit => { s with active_animation := none, visible := false }
  | some AnimKind.entry => { s with active_animation := none }
  | none => s

/-- `ReminderOverlay.reset_reminder_timer` (source lines 725-729). -/
def reset_reminder_timer (s : Overlay) (now draw : Int) : Overlay :=
  if s.preview then s
  else schedule_next_reminder { s with reminder_deadline := none } now draw

/-- `ReminderOverlay.mousePressEvent` (source lines 988-994): manual
dismissal hides the overlay and immediately re-arms the schedule. -/
def mousePressEvent (s : Overlay) (now draw : Int) : Overlay :=
  if s.preview then s
  else reset_reminder_timer (hide_overlay s) now draw

/-- Observable state of the transition animator across a sequence of
`_start_animation` calls (source lines 867-881).  Runs are identified by
a `Nat` id.  `active` is `self.active_animation`; `cancelled` collects
runs that were stopped mid-flight by a later start; `fired` collects, in
order, the runs whose `cleanup` (and hence `finalize`) callback ran. -/
structure AnimatorState where
  active : Option Nat
  cancelled : List Nat
  fired : List Nat
deriving DecidableEq, Repr

/-- Events driving the animator: `start id` is a `_start_animation` call
with a fresh run, `finish` is the active run reaching its end, at which
point Qt emits `finished` and the connected `cleanup` runs.  Per the Qt
`QAbstractAnimation` semantics, `stop()` on a run that has not reached
its end (the call in `_start_animation`, source line 869) does not emit
`finished`, so a superseded run produces no callback. -/
inductive AnimatorEvent where
  | start (id : Nat)
  | finish
deriving DecidableEq, Repr

/-- One animator step: `_start_animation` replaces (and silently cancels)
the active run; natural completion runs the `cleanup` of the active run
(which invokes `finalize` and clears `self.active_animation`). -/
def animator_step (s : AnimatorState) (e : AnimatorEvent) : AnimatorState :=
  match e with
  | AnimatorEvent.start id =>
    { active := some id,
      cancelled := s.cancelled ++ s.active.toList,
      fired := s.fired }
  | AnimatorEvent.finish =>
    match s.active with
    | some id => { active := none, cancelled := s.cancelled, fired := s.fired ++ [id] }
    | none => s

/-- Run the animator from the initial state (no active run). -/
def animator_run (events : List AnimatorEvent) : AnimatorState :=
  events.foldl animator_step ⟨none, [], []⟩

/-- The run ids started along an event sequence. -/
def startIds : List AnimatorEvent → List Nat
  | [] => []
  | AnimatorEvent.start id :: es => id :: startIds es
  | AnimatorEvent.finish :: es => startIds es

/-- All run ids recorded in an animator state. -/
def stateIds (s : AnimatorState) : List Nat :=
  s.fired ++ s.cancelled ++ s.active.toList
/-- A CPython `float` as it reaches configuration parsing.  A finite
double is kept as the exact decimal rational `m * 10^(-s)` (every IEEE
double has a terminating decimal expansion, so the domain covers all
doubles); the special values `inf`, `-inf` and `nan` are explicit.
IEEE rounding of finite values (including underflow to zero) is
abstracted — decimal input stays exact — while everything that changes
control flow or surface behavior is modelled: overflow errors,
saturation of string parsing to infinity, and the `str()` formatting
rules.  Values are kept in the canonical form produced by
`PyFloat.fin` (no trailing decimal zeros in the scale). -/
inductive PyFloat where
  | finite (m : Int) (s : Nat)
  | inf
  | ninf
  | nan
deriving DecidableEq, Repr

/-- Strip trailing decimal zeros, canonicalizing `m * 10^(-s)`: the
result has either scale zero or a mantissa not divisible by 10. -/
def decNorm : Int → Nat → Int × Nat
  | m, 0 => (m, 0)
  | m, s + 1 => if m % 10 = 0 then decNorm (Int.tdiv m 10) s else (m, s + 1)

/-- The canonical finite float of value `m * 10^(-s)`. -/
def PyFloat.fin (m : Int) (s : Nat) : PyFloat :=
  let p := decNorm m s
  PyFloat.finite p.1 p.2

/-- `10^s` as an integer, by structural recursion (it reduces without
the generic power instances). -/
def pow10 : Nat → Int
  | 0 => 1
  | s + 1 => 10 * pow10 s

/-- The Python exceptions relevant to `AppConfig.from_dict`: `get_int` /
`get_float` catch `TypeError` and `ValueError` (source lines 291-301),
so `OverflowError` — raised by `int()` on an infinite float and by
`float()` on an integer beyond double range — propagates out. -/
inductive PyExc where
  | typeError
  | valueError
  | overflowError
deriving DecidableEq, Repr

/-- JSON-decoded Python values as they reach `AppConfig.from_dict`
(`json.loads` produces `None`, `bool`, `int`, `float`, `str`, `list`
and `dict`; note it also admits the non-finite tokens `Infinity`,
`-Infinity` and `NaN`, which decode to non-finite floats). -/
inductive PyVal where
  | none
  | bool (b : Bool)
  | int (n : Int)
  | float (f : PyFloat)
  | str (s : String)
  | list (xs : List PyVal)
  | dict (entries : List (String × PyVal))

/-- Whether a value is a `dict` (`isinstance(data, dict)`). -/
def PyVal.isDict : PyVal → Bool
  | PyVal.dict _ => true
  | _ => false

/-- `data.get(key, default)` on the entry list of a dict (keys are
unique in a Python dict; the first binding is returned). -/
def dictGet (entries : List (String × PyVal)) (key : String) (dflt : PyVal) : PyVal :=
  match entries.find? (fun e => e.1 == key) with
  | some e => e.2
  | Option.none => dflt

/-- Numeric value of a digit string (no sign, no separators). -/
def natOfDigits (cs : List Char) : Nat :=
  cs.foldl (fun a c => a * 10 + (c.toNat - 48)) 0

/-- PEP-515 underscore placement inside a digit run, scanned with the
previous character as state: every underscore must be flanked by
digits. -/
def underscoresValidAux : Char → List Char → Bool
  | _, [] => true
  | p, '_' :: rest =>
    match rest with
    | [] => false
    | n :: _ => p.isDigit && n.isDigit && underscoresValidAux '_' rest
  | _, c :: rest => underscoresValidAux c rest

/-- PEP-515 underscore placement for a whole digit run: no leading
underscore, and every underscore flanked by digits. -/
def underscoresValid : List Char → Bool
  | [] => true
  | '_' :: _ => false
  | c :: rest => underscoresValidAux c rest

/-- One digit run of a CPython numeric literal: underscores may group
digits (`1_0`); the run may be empty.  Returns the numeric value and
the digit count, or `none` when the run is malformed. -/
def partU? (cs : List Char) : Option (Nat × Nat) :=
  if underscoresValid cs then
    let ds := cs.filter (fun c => c != '_')
    if ds.all Char.isDigit then some (natOfDigits ds, ds.length) else Option.none
  else Option.none

/-- A non-empty digit run with underscore grouping, as a number. -/
def digitsU? (cs : List Char) : Option Nat :=
  match partU? cs with
  | some p => if p.2 = 0 then Option.none else some p.1
  | Option.none => Option.none

/-- ASCII whitespace as stripped by the CPython `int()` / `float()`
string conversions (unicode whitespace is abstracted). -/
def isPyWs (c : Char) : Bool :=
  c == ' ' || c == '\t' || c == '\n' || c == '\r' || c == '\x0b' || c == '\x0c'

/-- Leading- and trailing-whitespace strip (`str.strip()`), at
character level. -/
def pyStrip (s : String) : List Char :=
  ((s.toList.dropWhile isPyWs).reverse.dropWhile isPyWs).reverse

/-- CPython `int(s)` on a string: optional surrounding whitespace, an
optional sign and a non-empty digit run with underscore grouping
(`int("1_0") = 10`); anything else raises `ValueError`, i.e. yields
`none`.  ASCII digits and whitespace are modelled. -/
def py_int_of_string (s : String) : Option Int :=
  match pyStrip s with
  | '+' :: rest => (digitsU? rest).map (fun n => (n : Int))
  | '-' :: rest => (digitsU? rest).map (fun n => -(n : Int))
  | rest => (digitsU? rest).map (fun n => (n : Int))

/-- Split a character list at the first occurrence of `sep`; the second
component is `none` when `sep` does not occur. -/
def splitFirst (sep : Char) : List Char → (List Char × Option (List Char))
  | [] => ([], Option.none)
  | c :: rest =>
    if c = sep then ([], some rest)
    else
      let r := splitFirst sep rest
      (c :: r.1, r.2)

/-- The mantissa of a CPython float literal: `digits[.digits]` with
underscore grouping per part and at least one digit overall (`"5."`,
`".5"` and `"1_0.5"` are accepted).  Returns the decimal value as a
mantissa and scale: `int.frac` is `(int * 10^len(frac) + frac,
len(frac))`. -/
def parseMantissa (cs : List Char) : Option (Nat × Nat) :=
  let sp := splitFirst '.' cs
  match partU? sp.1 with
  | Option.none => Option.none
  | some ip =>
    match sp.2 with
    | Option.none => if ip.2 = 0 then Option.none else some (ip.1, 0)
    | some fcs =>
      match partU? fcs with
      | Option.none => Option.none
      | some fp =>
        if ip.2 = 0 ∧ fp.2 = 0 then Option.none
        else some (ip.1 * 10 ^ fp.2 + fp.1, fp.2)

/-- The exponent of a CPython float literal: optional sign and a
non-empty digit run with underscore grouping. -/
def parseExp (cs : List Char) : Option Int :=
  match cs with
  | '+' :: rest => (digitsU? rest).map (fun n => (n : Int))
  | '-' :: rest => (digitsU? rest).map (fun n => -(n : Int))
  | rest => (digitsU? rest).map (fun n => (n : Int))

/-- The smallest integer magnitude that rounds (to nearest, ties to
even) past the largest double `2^1024 - 2^971`: conversions reaching it
overflow.  `float()` on an int at or above it raises `OverflowError`,
while string parsing saturates to infinity instead.  Written as a
literal so that it evaluates without unary-power recursion; the lemma
`PY_FLOAT_OVERFLOW_eq` below checks it equals `2^1024 - 2^970`. -/
def PY_FLOAT_OVERFLOW : Int :=
  179769313486231580793728971405303415079934132710037826936173778980444968292764750946649017977587207096330286416692887910946555547851940402630657488671505820681908902000708383676273854845817711531764475730270069855571366959622842914819860834936475292719074168444365510704342711559699508093042880177904174497792

/-- Build the float for a parsed decimal magnitude `m * 10^(-s)` and
sign: string parsing saturates to infinity beyond double range (CPython
`float("1e400")` is `inf`, no exception). -/
def mkPyFloat (neg : Bool) (m s : Nat) : PyFloat :=
  if PY_FLOAT_OVERFLOW * pow10 s ≤ (m : Int) then (if neg then PyFloat.ninf else PyFloat.inf)
  else PyFloat.fin (if neg then -(m : Int) else (m : Int)) s

/-- An unsigned CPython float literal after sign stripping: decimal
mantissa with optional exponent (`float("1e5") = 100000.0`). -/
def parseDecimal (cs : List Char) (neg : Bool) : Option PyFloat :=
  let sp := splitFirst 'e' cs
  match parseMantissa sp.1 with
  | Option.none => Option.none
  | some mt =>
    match sp.2 with
    | Option.none => some (mkPyFloat neg mt.1 mt.2)
    | some ecs =>
      match parseExp ecs with
      | Option.none => Option.none
      | some e =>
        match e with
        | Int.ofNat k => some (mkPyFloat neg (mt.1 * 10 ^ k) mt.2)
        | Int.negSucc k => some (mkPyFloat neg mt.1 (mt.2 + (k + 1)))

/-- The body of a CPython float string after the optional sign:
`inf` / `infinity` / `nan` (case already lowered) or a decimal
literal. -/
def parseFloatBody (cs : List Char) (neg : Bool) : Option PyFloat :=
  if cs = ['i', 'n', 'f'] ∨ cs = ['i', 'n', 'f', 'i', 'n', 'i', 't', 'y'] then
    some (if neg then PyFloat.ninf else PyFloat.inf)
  else if cs = ['n', 'a', 'n'] then some PyFloat.nan
  else parseDecimal cs neg

/-- CPython `float(s)` on a string: optional whitespace and sign, then a
case-insensitive `inf` / `infinity` / `nan` or a decimal literal with
optional exponent and underscore grouping; overflow saturates to
infinity.  `none` means `ValueError`. -/
def py_float_of_string (s : String) : Option PyFloat :=
  match (pyStrip s).map Char.toLower with
  | '+' :: rest => parseFloatBody rest false
  | '-' :: rest => parseFloatBody rest true
  | rest => parseFloatBody rest false

/-- CPython `int(x)`: booleans and ints pass through, finite floats
truncate toward zero, infinite floats raise `OverflowError`, `nan`
raises `ValueError`, strings parse per `int()` or raise `ValueError`,
and any other type raises `TypeError`. -/
def py_int_conv : PyVal → Except PyExc Int
  | PyVal.bool b => Except.ok (if b then 1 else 0)
  | PyVal.int n => Except.ok n
  | PyVal.float (PyFloat.finite m s) => Except.ok (Int.tdiv m (pow10 s))
  | PyVal.float PyFloat.inf => Except.error PyExc.overflowError
  | PyVal.float PyFloat.ninf => Except.error PyExc.overflowError
  | PyVal.float PyFloat.nan => Except.error PyExc.valueError
  | PyVal.str s =>
    match py_int_of_string s with
    | some n => Except.ok n
    | Option.none => Except.error PyExc.valueError
  | _ => Except.error PyExc.typeError

/-- CPython `float(x)`: booleans and floats pass through, an int at or
beyond double range raises `OverflowError`, strings parse per `float()`
or raise `ValueError`, and any other type raises `TypeError`. -/
def py_float_conv : PyVal → Except PyExc PyFloat
  | PyVal.bool b => Except.ok (PyFloat.finite (if b then 1 else 0) 0)
  | PyVal.int n =>
    if PY_FLOAT_OVERFLOW ≤ n ∨ n ≤ -PY_FLOAT_OVERFLOW then Except.error PyExc.overflowError
    else Except.ok (PyFloat.finite n 0)
  | PyVal.float f => Except.ok f
  | PyVal.str s =>
    match py_float_of_string s with
    | some f => Except.ok f
    | Option.none => Except.error PyExc.valueError
  | _ => Except.error PyExc.typeError

/-- Python `bool(x)` truthiness (`bool(nan)` and `bool(inf)` are
`True`; only the zero float is falsy). -/
def py_truthy : PyVal → Bool
  | PyVal.none => false
  | PyVal.bool b => b
  | PyVal.int n => n != 0
  | PyVal.float f => f != PyFloat.finite 0 0
  | PyVal.str s => s != ""
  | PyVal.list xs => !xs.isEmpty
  | PyVal.dict es => !es.isEmpty

/-- Strip trailing `'0'` characters from a digit list. -/
def dropTrailingZeros (cs : List Char) : List Char :=
  ((cs.reverse).dropWhile (fun c => c == '0')).reverse

/-- CPython `repr`/`str` of a finite float `m * 10^(-s)` (exact under
the decimal abstraction): positional format when the decimal exponent
lies in `[-4, 16)` (`str(5.0) = "5.0"`, `str(0.95) = "0.95"`),
scientific with a signed two-digit-minimum exponent otherwise
(`str(1e16) = "1e+16"`, `str(1e-5) = "1e-05"`). -/
def pyFloatRepr (m : Int) (s : Nat) : String :=
  if m = 0 then "0.0"
  else
    let sign := if m < 0 then "-" else ""
    let S := (toString m.natAbs).toList
    let x : Int := (S.length : Int) - (s : Int) - 1
    if -4 ≤ x ∧ x < 16 then
      let intPart := if S.length > s then S.take (S.length - s) else ['0']
      let fracRaw := if S.length ≥ s then S.drop (S.length - s)
                     else List.replicate (s - S.length) '0' ++ S
      let frac := dropTrailingZeros fracRaw
      sign ++ String.mk intPart ++ "." ++ (if frac.isEmpty then "0" else String.mk frac)
    else
      let D := dropTrailingZeros S
      let mant := match D with
        | [] => "0"
        | c :: rest => String.mk [c] ++ (if rest.isEmpty then "" else "." ++ String.mk rest)
      let es := if x < 0 then "-" else "+"
      let xa := (if x < 0 then -x else x).toNat
      let ed := if xa < 10 then "0" ++ toString xa else toString xa
      sign ++ mant ++ "e" ++ es ++ ed

/-- Python `str(x)`.  Strings, ints, bools, `None` and floats render as
in CPython (`str(5.0) = "5.0"`, `str(inf) = "inf"`); the repr of `list`
and `dict` values is abstracted as an opaque token — every string-typed
field of the settings file holds a string, and no claim inspects the
repr of a container. -/
def py_str : PyVal → String
  | PyVal.str s => s
  | PyVal.int n => toString n
  | PyVal.bool b => if b then "True" else "False"
  | PyVal.none => "None"
  | PyVal.float (PyFloat.finite m s) => pyFloatRepr m s
  | PyVal.float PyFloat.inf => "inf"
  | PyVal.float PyFloat.ninf => "-inf"
  | PyVal.float PyFloat.nan => "nan"
  | PyVal.list _ => "[...]"
  | PyVal.dict _ => "\x7b...\x7d"

/-- A Qt color as constructed by `QColor(r, g, b, a)`. -/
structure QColor where
  r : Int
  g : Int
  b : Int
  a : Int
deriving DecidableEq, Repr

/-- `QColor.isValid`: the constructor yields a valid color exactly when
every component is in `[0, 255]`. -/
def QColor.isValid (c : QColor) : Bool :=
  decide (0 ≤ c.r ∧ c.r ≤ 255 ∧ 0 ≤ c.g ∧ c.g ≤ 255 ∧
          0 ≤ c.b ∧ c.b ≤ 255 ∧ 0 ≤ c.a ∧ c.a ≤ 255)

/-- `color_from_dict` (source lines 159-172): non-dict input falls back;
the four `int()` coercions are evaluated in source order inside one
`try` whose `except (TypeError, ValueError)` returns the fallback, so
those two errors fall back while `OverflowError` (an infinite float
component) propagates; an invalid resulting color also falls back;
missing components default per channel from the fallback color. -/
def color_from_dict (data : PyVal) (fallback : QColor) : Except PyExc QColor :=
  match data with
  | PyVal.dict entries =>
    match py_int_conv (dictGet entries "r" (PyVal.int fallback.r)) with
    | Except.error PyExc.overflowError => Except.error PyExc.overflowError
    | Except.error _ => Except.ok fallback
    | Except.ok r =>
      match py_int_conv (dictGet entries "g" (PyVal.int fallback.g)) with
      | Except.error PyExc.overflowError => Except.error PyExc.overflowError
      | Except.error _ => Except.ok fallback
      | Except.ok g =>
        match py_int_conv (dictGet entries "b" (PyVal.int fallback.b)) with
        | Except.error PyExc.overflowError => Except.error PyExc.overflowError
        | Except.error _ => Except.ok fallback
        | Except.ok b =>
          match py_int_conv (dictGet entries "a" (PyVal.int fallback.a)) with
          | Except.error PyExc.overflowError => Except.error PyExc.overflowError
          | Except.error _ => Except.ok fallback
          | Except.ok a =>
            let color : QColor := ⟨r, g, b, a⟩
            Except.ok (if color.isValid then color else fallback)
  | _ => Except.ok fallback

/-- The storage assets directory (`STORAGE_ASSETS_DIR`, source line 63);
`from_dict` always overwrites `asset_directory` with it. -/
def STORAGE_ASSETS_DIR : String := "C:\\TEX-Programme\\HydrationReminder\\assets"

/-- The `AppConfig` dataclass (source lines 205-246).  `Path` fields are
modelled as strings, colors as `QColor`, floats as `PyFloat`. -/
structure AppConfig where
  reminder_interval_ms : Int
  auto_hide_ms : Int
  animation_interval_ms : Int
  show_preview_on_launch : Bool
  preview_delay_ms : Int
  asset_directory : String
  position : String
  margin_x : Int
  margin_y : Int
  random_offset_ms : Int
  overlay_width : Int
  overlay_height : Int
  overlay_opacity : PyFloat
  background_radius : Int
  gradient_top : QColor
  gradient_bottom : QColor
  border_color : QColor
  shadow_color : QColor
  title_text : String
  title_font_size : Int
  title_color : QColor
  message_template : String
  message_font_size : Int
  text_opacity : PyFloat
  text_color : QColor
  countdown_enabled : Bool
  countdown_template : String
  countdown_font_size : Int
  countdown_color : QColor
  animation_enabled : Bool
  entry_animation : String
  monitor_id : String
  autostart_enabled : Bool
deriving DecidableEq, Repr

/-- The dataclass defaults (`cls()` in `from_dict`). -/
def AppConfig.default : AppConfig where
  reminder_interval_ms := 45 * 60 * 1000
  auto_hide_ms := 15 * 1000
  animation_interval_ms := 200
  show_preview_on_launch := true
  preview_delay_ms := 2000
  asset_directory := STORAGE_ASSETS_DIR
  position := "bottom_right"
  margin_x := 16
  margin_y := 16
  random_offset_ms := 0
  overlay_width := 360
  overlay_height := 180
  overlay_opacity := PyFloat.finite 1 0
  background_radius := 24
  gradient_top := ⟨28, 116, 235, 235⟩
  gradient_bottom := ⟨80, 170, 255, 235⟩
  border_color := ⟨255, 255, 255, 200⟩
  shadow_color := ⟨0, 0, 0, 90⟩
  title_text := "Hydration break"
  title_font_size := 22
  title_color := ⟨255, 255, 255, 255⟩
  message_template := "It\x27s time to take a sip of water.\nEvery {interval}"
  message_font_size := 14
  text_opacity := PyFloat.finite 95 2
  text_color := ⟨235, 238, 245, 255⟩
  countdown_enabled := true
  countdown_template := "Next reminder in {remaining}."
  countdown_font_size := 12
  countdown_color := ⟨255, 255, 255, 255⟩
  animation_enabled := true
  entry_animation := "fade"
  monitor_id := "auto"
  autostart_enabled := false

/-- The `get_int` closure of `from_dict` (source lines 291-295), with
the dict passed explicitly: `int(data.get(key, default))` under
`except (TypeError, ValueError): return default` — so those two errors
yield the default while `OverflowError` propagates. -/
def pyGetInt (d : List (String × PyVal)) (key : String) (dflt : Int) : Except PyExc Int :=
  match py_int_conv (dictGet d key (PyVal.int dflt)) with
  | Except.ok n => Except.ok n
  | Except.error PyExc.overflowError => Except.error PyExc.overflowError
  | Except.error _ => Except.ok dflt

/-- The `get_float` closure of `from_dict` (source lines 297-301),
analogous to `pyGetInt`. -/
def pyGetFloat (d : List (String × PyVal)) (key : String) (dflt : PyFloat) : Except PyExc PyFloat :=
  match py_float_conv (dictGet d key (PyVal.float dflt)) with
  | Except.ok f => Except.ok f
  | Except.error PyExc.overflowError => Except.error PyExc.overflowError
  | Except.error _ => Except.ok dflt

/-- `AppConfig.from_dict` (source lines 285-336): starts from the
defaults, returns them unchanged for non-dict input, and otherwise
assigns every field in source order: ints and floats through the
`get_int` / `get_float` closures, bools through `bool()`, strings
through `str()`, colors through `color_from_dict`, with
`asset_directory` finally forced to the storage directory.  Fallible
conversions are sequenced with `bind` in the exact source order, so an
uncaught `OverflowError` aborts `from_dict` at the first field that
raises it, as in Python.  The source assigns the fields one at a time
on a mutable `config`; every field is assigned exactly once and each
default reads only that same, still untouched field, so the sequential
assignments equal the one final record below. -/
def AppConfig.from_dict (data : PyVal) : Except PyExc AppConfig :=
  let config := AppConfig.default
  match data with
  | PyVal.dict d =>
    (pyGetInt d "reminder_interval_ms" config.reminder_interval_ms).bind fun reminder_interval_ms =>
    (pyGetInt d "auto_hide_ms" config.auto_hide_ms).bind fun auto_hide_ms =>
    (pyGetInt d "animation_interval_ms" config.animation_interval_ms).bind fun animation_interval_ms =>
    let show_preview_on_launch := py_truthy (dictGet d "show_preview_on_launch" (PyVal.bool config.show_preview_on_launch))
    (pyGetInt d "preview_delay_ms" config.preview_delay_ms).bind fun preview_delay_ms =>
    let position := py_str (dictGet d "position" (PyVal.str config.position))
    (pyGetInt d "margin_x" config.margin_x).bind fun margin_x =>
    (pyGetInt d "margin_y" config.margin_y).bind fun margin_y =>
    (pyGetInt d "random_offset_ms" config.random_offset_ms).bind fun random_offset_ms =>
    (pyGetInt d "overlay_width" config.overlay_width).bind fun overlay_width =>
    (pyGetInt d "overlay_height" config.overlay_height).bind fun overlay_height =>
    (pyGetFloat d "overlay_opacity" config.overlay_opacity).bind fun overlay_opacity =>
    (pyGetInt d "background_radius" config.background_radius).bind fun background_radius =>
    (color_from_dict (dictGet d "gradient_top" PyVal.none) config.gradient_top).bind fun gradient_top =>
    (color_from_dict (dictGet d "gradient_bottom" PyVal.none) config.gradient_bottom).bind fun gradient_bottom =>
    (color_from_dict (dictGet d "border_color" PyVal.none) config.border_color).bind fun border_color =>
    (color_from_dict (dictGet d "shadow_color" PyVal.none) config.shadow_color).bind fun shadow_color =>
    let title_text := py_str (dictGet d "title_text" (PyVal.str config.title_text))
    (pyGetInt d "title_font_size" config.title_font_size).bind fun title_font_size =>
    (color_from_dict (dictGet d "title_color" PyVal.none) config.title_color).bind fun title_color =>
    let message_template := py_str (dictGet d "message_template" (PyVal.str config.message_template))
    (pyGetInt d "message_font_size" config.message_font_size).bind fun message_font_size =>
    (pyGetFloat d "text_opacity" config.text_opacity).bind fun text_opacity =>
    (color_from_dict (dictGet d "text_color" PyVal.none) config.text_color).bind fun text_color =>
    let countdown_enabled := py_truthy (dictGet d "countdown_enabled" (PyVal.bool config.countdown_enabled))
    let countdown_template := py_str (dictGet d "countdown_template" (PyVal.str config.countdown_template))
    (pyGetInt d "countdown_font_size" config.countdown_font_size).bind fun countdown_font_size =>
    (color_from_dict (dictGet d "countdown_color" PyVal.none) config.countdown_color).bind fun countdown_color =>
    let animation_enabled := py_truthy (dictGet d "animation_enabled" (PyVal.bool config.animation_enabled))
    let entry_animation := py_str (dictGet d "entry_animation" (PyVal.str config.entry_animation))
    let monitor_id := py_str (dictGet d "monitor_id" (PyVal.str config.monitor_id))
    let autostart_enabled := py_truthy (dictGet d "autostart_enabled" (PyVal.bool config.autostart_enabled))
    Except.ok { config with
      reminder_interval_ms := reminder_interval_ms,
      auto_hide_ms := auto_hide_ms,
      animation_interval_ms := animation_interval_ms,
      show_preview_on_launch := show_preview_on_launch,
      preview_delay_ms := preview_delay_ms,
      position := position,
      margin_x := margin_x,
      margin_y := margin_y,
      random_offset_ms := random_offset_ms,
      overlay_width := overlay_width,
      overlay_height := overlay_height,
      overlay_opacity := overlay_opacity,
      background_radius := background_radius,
      gradient_top := gradient_top,
      gradient_bottom := gradient_bottom,
      border_color := border_color,
      shadow_color := shadow_color,
      title_text := title_text,
      title_font_size := title_font_size,
      title_color := title_color,
      message_template := message_template,
      message_font_size := message_font_size,
      text_opacity := text_opacity,
      text_color := text_color,
      countdown_enabled := countdown_enabled,
      countdown_template := countdown_template,
      countdown_font_size := countdown_font_size,
      countdown_color := countdown_color,
      animation_enabled := animation_enabled,
      entry_animation := entry_animation,
      monitor_id := monitor_id,
      autostart_enabled := autostart_enabled,
      asset_directory := STORAGE_ASSETS_DIR }
  | _ => Except.ok config

/-- Field-wise extraction of an int configuration field, with the
caught-exception semantics of `get_int` (any caught failure yields the
default); only the own key of the field is consulted. -/
def cfg_int (d : List (String × PyVal)) (key : String) (dflt : Int) : Int :=
  match py_int_conv (dictGet d key (PyVal.int dflt)) with
  | Except.ok n => n
  | Except.error _ => dflt

/-- Field-wise extraction of a float configuration field. -/
def cfg_float (d : List (String × PyVal)) (key : String) (dflt : PyFloat) : PyFloat :=
  match py_float_conv (dictGet d key (PyVal.float dflt)) with
  | Except.ok f => f
  | Except.error _ => dflt

/-- Field-wise extraction of a bool configuration field. -/
def cfg_bool (d : List (String × PyVal)) (key : String) (dflt : Bool) : Bool :=
  py_truthy (dictGet d key (PyVal.bool dflt))

/-- Field-wise extraction of a string configuration field. -/
def cfg_str (d : List (String × PyVal)) (key : String) (dflt : String) : String :=
  py_str (dictGet d key (PyVal.str dflt))

/-- Field-wise extraction of a color configuration field. -/
def cfg_color (d : List (String × PyVal)) (key : String) (dflt : QColor) : QColor :=
  match color_from_dict (dictGet d key PyVal.none) dflt with
  | Except.ok c => c
  | Except.error _ => dflt

/-- Field-wise form of deserialization, following the reading of the
spec that every field is extracted independently from its own key with
its own default.  `AppConfig.from_dict` is proved below to agree with
it whenever it returns a configuration at all. -/
def AppConfig.from_dict_fieldwise (d : List (String × PyVal)) : AppConfig where
  reminder_interval_ms := cfg_int d "reminder_interval_ms" (45 * 60 * 1000)
  auto_hide_ms := cfg_int d "auto_hide_ms" (15 * 1000)
  animation_interval_ms := cfg_int d "animation_interval_ms" 200
  show_preview_on_launch := cfg_bool d "show_preview_on_launch" true
  preview_delay_ms := cfg_int d "preview_delay_ms" 2000
  asset_directory := STORAGE_ASSETS_DIR
  position := cfg_str d "position" "bottom_right"
  margin_x := cfg_int d "margin_x" 16
  margin_y := cfg_int d "margin_y" 16
  random_offset_ms := cfg_int d "random_offset_ms" 0
  overlay_width := cfg_int d "overlay_width" 360
  overlay_height := cfg_int d "overlay_height" 180
  overlay_opacity := cfg_float d "overlay_opacity" (PyFloat.finite 1 0)
  background_radius := cfg_int d "background_radius" 24
  gradient_top := cfg_color d "gradient_top" ⟨28, 116, 235, 235⟩
  gradient_bottom := cfg_color d "gradient_bottom" ⟨80, 170, 255, 235⟩
  border_color := cfg_color d "border_color" ⟨255, 255, 255, 200⟩
  shadow_color := cfg_color d "shadow_color" ⟨0, 0, 0, 90⟩
  title_text := cfg_str d "title_text" "Hydration break"
  title_font_size := cfg_int d "title_font_size" 22
  title_color := cfg_color d "title_color" ⟨255, 255, 255, 255⟩
  message_template := cfg_str d "message_template" "It\x27s time to take a sip of water.\nEvery {interval}"
  message_font_size := cfg_int d "message_font_size" 14
  text_opacity := cfg_float d "text_opacity" (PyFloat.finite 95 2)
  text_color := cfg_color d "text_color" ⟨235, 238, 245, 255⟩
  countdown_enabled := cfg_bool d "countdown_enabled" true
  countdown_template := cfg_str d "countdown_template" "Next reminder in {remaining}."
  countdown_font_size := cfg_int d "countdown_font_size" 12
  countdown_color := cfg_color d "countdown_color" ⟨255, 255, 255, 255⟩
  animation_enabled := cfg_bool d "animation_enabled" true
  entry_animation := cfg_str d "entry_animation" "fade"
  monitor_id := cfg_str d "monitor_id" "auto"
  autostart_enabled := cfg_bool d "autostart_enabled" false

/-- A concrete non-preview overlay state with a 500 ms configured
interval and a 300 ms jitter ceiling, used to instantiate the
scheduling theorem. -/
def exC1 : Overlay :=
  ⟨false, 500, 300, 15000, true, "fade", true, false, 0, false, false,
   Option.none, Option.none, Option.none, 0, false⟩

/-- A concrete non-preview overlay state with the default configuration
(45 min interval, no jitter, 15 s auto-hide, fade effect, frames
loaded), sitting idle before a reminder fires. -/
def exC3 : Overlay :=
  ⟨false, 2700000, 0, 15000, true, "fade", true, false, 0, true, false,
   Option.none, Option.none, some 0, 0, false⟩

/-- A concrete non-preview overlay state that is idle (hidden) while its
sprite-tick timer is running, as `apply_config` leaves it when animation
is enabled and frames are loaded. -/
def exC5 : Overlay :=
  ⟨false, 2700000, 0, 15000, true, "fade", true, false, 3, true, false,
   Option.none, Option.none, some 2700000, 2700000, false⟩

/-- Animator invariant: fired callbacks are distinct, no cancelled run
ever fired, and the active run has neither fired nor been cancelled. -/
def AnimatorInv (s : AnimatorState) : Prop :=
  s.fired.Nodup ∧ (∀ id ∈ s.cancelled, id ∉ s.fired) ∧
  (∀ id ∈ s.active.toList, id ∉ s.fired ∧ id ∉ s.cancelled)

lemma intercalate_one (a : String) : String.intercalate " " [a] = a := rfl

lemma intercalate_two (a b : String) : String.intercalate " " [a, b] = a ++ " " ++ b := rfl

/-- `show_overlay` touches neither the armed reminder deadline nor the
stored next-reminder time. -/
lemma show_overlay_schedule (s : Overlay) (now : Int) :
    (show_overlay s now).next_reminder = s.next_reminder ∧
    (show_overlay s now).reminder_deadline = s.reminder_deadline := by
  simp only [show_overlay, apply_config_effects, run_entry_animation]
  split_ifs <;> simp

/-- Run ids recorded after a step were recorded before, unless the step
started that id. -/
lemma stateIds_step (s : AnimatorState) (e : AnimatorEvent) (a : Nat)
    (ha : a ∈ stateIds (animator_step s e)) :
    a ∈ stateIds s ∨ AnimatorEvent.start a = e := by
  cases e with
  | start id =>
    cases hh : s.active <;>
      simp [animator_step, stateIds, hh] at ha ⊢ <;> tauto
  | finish =>
    cases hh : s.active <;>
      simp [animator_step, stateIds, hh] at ha ⊢ <;> tauto

/-- One animator step preserves the invariant when a started id is
fresh. -/
lemma inv_step (s : AnimatorState) (e : AnimatorEvent) (hinv : AnimatorInv s)
    (hfresh : ∀ id, AnimatorEvent.start id = e → id ∉ stateIds s) :
    AnimatorInv (animator_step s e) := by
  obtain ⟨h1, h2, h3⟩ := hinv
  cases e with
  | start id =>
    have hid := hfresh id rfl
    simp [stateIds] at hid
    refine ⟨h1, ?_, ?_⟩
    · intro a ha
      simp [animator_step] at ha ⊢
      rcases ha with h | h
      · exact h2 a h
      · cases hh : s.active with
        | none => simp [hh] at h
        | some b =>
          simp [hh] at h
          subst h
          exact (h3 b (by simp [hh])).1
    · intro a ha
      simp [animator_step] at ha
      subst ha
      refine ⟨hid.1, ?_⟩
      simp [animator_step]
      constructor
      · exact hid.2.1
      · cases hh : s.active with
        | none => simp [hh]
        | some b => simp [hh]; intro hab; exact absurd (hab ▸ hid.2.2) (by simp [hh])
  | finish =>
    cases hh : s.active with
    | none => simpa [animator_step, hh] using ⟨h1, h2, h3⟩
    | some id =>
      have hact := h3 id (by simp [hh])
      refine ⟨?_, ?_, ?_⟩
      · have hnd : (s.fired ++ [id]).Nodup :=
          h1.append (List.nodup_singleton id)
            (by intro a ha hb; simp at hb; subst hb; exact hact.1 ha)
        simpa [animator_step, hh] using hnd
      · intro a ha
        simp [animator_step, hh] at ha ⊢
        constructor
        · exact h2 a ha
        · intro hai
          subst hai
          exact absurd ha hact.2
      · intro a ha
        simp [animator_step, hh] at ha

/-- Folding animator steps over fresh, distinct run ids preserves the
invariant. -/
lemma foldl_inv (events : List AnimatorEvent) (s : AnimatorState)
    (hn : (startIds events).Nodup)
    (hfresh : ∀ id ∈ startIds events, id ∉ stateIds s)
    (hinv : AnimatorInv s) :
    AnimatorInv (events.foldl animator_step s) := by
  induction events generalizing s with
  | nil => simpa using hinv
  | cons e es ih =>
    simp only [List.foldl_cons]
    have hstep : AnimatorInv (animator_step s e) := by
      refine inv_step s e hinv ?_
      intro id he
      refine hfresh id ?_
      rw [← he]
      simp [startIds]
    refine ih (animator_step s e) ?_ ?_ hstep
    · cases e with
      | start id => exact (List.nodup_cons.mp (by simpa [startIds] using hn)).2
      | finish => simpa [startIds] using hn
    · intro id hid hmem
      rcases stateIds_step s e id hmem with h | h
      · refine hfresh id ?_ h
        cases e <;> simp [startIds] <;> tauto
      · cases e with
        | start j =>
          have hij : id = j := by injection h
          subst hij
          exact (List.nodup_cons.mp (by simpa [startIds] using hn)).1 hid
        | finish => cases h

/-- The overflow bound literal is exactly `2^1024 - 2^970`. -/
lemma PY_FLOAT_OVERFLOW_eq : PY_FLOAT_OVERFLOW = 2 ^ 1024 - 2 ^ 970 := by
  norm_num [PY_FLOAT_OVERFLOW]

/-- Peeling one `bind` off a successful `Except` computation. -/
lemma except_bind_ok {α β : Type} {x : Except PyExc α} {f : α → Except PyExc β} {c : β}
    (h : x.bind f = Except.ok c) : ∃ a, x = Except.ok a ∧ f a = Except.ok c := by
  cases x with
  | error e => simp [Except.bind] at h
  | ok a => exact ⟨a, rfl, by simpa [Except.bind] using h⟩

/-- A successful `get_int` returns exactly the field-wise extraction. -/
lemma cfg_int_ok {d : List (String × PyVal)} {key : String} {dflt n : Int}
    (h : pyGetInt d key dflt = Except.ok n) : cfg_int d key dflt = n := by
  unfold cfg_int
  unfold pyGetInt at h
  cases hc : py_int_conv (dictGet d key (PyVal.int dflt)) with
  | ok m => simp_all
  | error e => cases e <;> simp_all

/-- A successful `get_float` returns exactly the field-wise extraction. -/
lemma cfg_float_ok {d : List (String × PyVal)} {key : String} {dflt f : PyFloat}
    (h : pyGetFloat d key dflt = Except.ok f) : cfg_float d key dflt = f := by
  unfold cfg_float
  unfold pyGetFloat at h
  cases hc : py_float_conv (dictGet d key (PyVal.float dflt)) with
  | ok g => simp_all
  | error e => cases e <;> simp_all

/-- A successful `color_from_dict` returns exactly the field-wise
extraction. -/
lemma cfg_color_ok {d : List (String × PyVal)} {key : String} {fb c : QColor}
    (h : color_from_dict (dictGet d key PyVal.none) fb = Except.ok c) :
    cfg_color d key fb = c := by
  unfold cfg_color
  rw [h]

/-- Claim C1: arming the schedule at time `now` with configured interval
`I` and jitter ceiling `J` yields, writing `Ic = max 1000 I` for the
interval clamped to the 1-second floor that the claim requires before
use: `fires_at = now + Ic` when `J = 0`, and
`fires_at ∈ [now + Ic, now + Ic + J]` when `J > 0` (the draw being
`randint(0, J)`); in every case at least one second elapses, and the
armed timer fires exactly at `next_reminder`. -/
theorem C1_schedule_next_reminder_jitter_bounds (s : Overlay) (now draw : Int)
    (hp : s.preview = false)
    (hdraw : s.cfg_random_offset > 0 → 0 ≤ draw ∧ draw ≤ s.cfg_random_offset) :
    ((s.cfg_random_offset = 0 →
        (schedule_next_reminder s now draw).next_reminder = now + max 1000 s.cfg_interval) ∧
     (s.cfg_random_offset > 0 →
        now + max 1000 s.cfg_interval ≤ (schedule_next_reminder s now draw).next_reminder ∧
        (schedule_next_reminder s now draw).next_reminder
          ≤ now + max 1000 s.cfg_interval + s.cfg_random_offset)) ∧
    now + 1000 ≤ (schedule_next_reminder s now draw).next_reminder ∧
    (schedule_next_reminder s now draw).reminder_deadline =
      some ((schedule_next_reminder s now draw).next_reminder) := by
  by_cases h : s.cfg_random_offset > 0
  · have hdd := hdraw h
    simp only [schedule_next_reminder, hp, Bool.false_eq_true, if_false, if_pos h]
    refine ⟨⟨fun h0 => by omega, fun _ => ⟨?_, ?_⟩⟩, ?_, by trivial⟩ <;>
      simp [Int.max_def] <;> split_ifs <;> omega
  · simp only [schedule_next_reminder, hp, Bool.false_eq_true, if_false, if_neg h]
    refine ⟨⟨fun h0 => by simp, fun h0 => absurd h0 h⟩, ?_, by trivial⟩
    simp [Int.max_def]; split_ifs <;> omega

/-- Witness for C1 at a concrete state: interval 500 ms, jitter ceiling
300 ms, draw 100 ms. -/
theorem C1_witness :
    0 + max 1000 (500 : Int) ≤ (schedule_next_reminder exC1 0 100).next_reminder ∧
    (schedule_next_reminder exC1 0 100).next_reminder ≤ 0 + max 1000 (500 : Int) + 300 := by
  have h := C1_schedule_next_reminder_jitter_bounds exC1 0 100 (by decide)
    (fun _ => ⟨by decide, by decide⟩)
  exact h.1.2 (by decide)

/-- Claim C2 counterexample: an overlay wider than the screen.  On
screen `(0,0,100,100)` with overlay extent `(200,50)` the resolver
returns `x = 0`, which is strictly greater than
`screen.x + screen.width - overlay.width = -100`, so the claimed upper
bound fails whenever the overlay extent exceeds the screen. -/
theorem C2_counterexample :
    (position_overlay ⟨0, 0, 100, 100⟩ 200 50 "bottom_right" 0 0).1 = 0 ∧
    ¬ ((position_overlay ⟨0, 0, 100, 100⟩ 200 50 "bottom_right" 0 0).1 ≤ 0 + 100 - 200) := by
  decide

/-- Claim C2 (amended): whenever the overlay fits on the screen
(`overlay.width ≤ screen.width` and `overlay.height ≤ screen.height`),
the resolved position lies in
`[screen.x, screen.x + screen.width - overlay.width] ×
 [screen.y, screen.y + screen.height - overlay.height]` for every anchor
string and all margins (even negative or oversized ones). -/
theorem C2_clamped_within_screen_when_fits (geo : Rect) (width height : Int)
    (position : String) (mx my : Int)
    (hw : width ≤ geo.width) (hh : height ≤ geo.height) :
    geo.x ≤ (position_overlay geo width height position mx my).1 ∧
    (position_overlay geo width height position mx my).1 ≤ geo.x + geo.width - width ∧
    geo.y ≤ (position_overlay geo width height position mx my).2 ∧
    (position_overlay geo width height position mx my).2 ≤ geo.y + geo.height - height := by
  simp only [position_overlay]
  split_ifs <;> simp [Int.max_def, Int.min_def] <;> split_ifs <;> omega

/-- Witness for C2 on the standard full-HD scenario. -/
theorem C2_witness :
    (0 : Int) ≤ (position_overlay ⟨0, 0, 1920, 1080⟩ 360 180 "bottom_right" 16 16).1 ∧
    (position_overlay ⟨0, 0, 1920, 1080⟩ 360 180 "bottom_right" 16 16).1 ≤ 0 + 1920 - 360 ∧
    (0 : Int) ≤ (position_overlay ⟨0, 0, 1920, 1080⟩ 360 180 "bottom_right" 16 16).2 ∧
    (position_overlay ⟨0, 0, 1920, 1080⟩ 360 180 "bottom_right" 16 16).2 ≤ 0 + 1080 - 180 := by
  exact C2_clamped_within_screen_when_fits ⟨0, 0, 1920, 1080⟩ 360 180 "bottom_right" 16 16
    (by decide) (by decide)

/-- Claim C3 counterexample: starting from the idle default state, a
reminder fires at time 0 (arming `next_reminder = 2,700,000` before
showing), auto-hide runs `hide_overlay` at time 15,000 and the exit
animation completes around time 15,200, returning the overlay to Idle.
The schedule is unchanged by the whole Hiding-to-Idle sequence: it still
fires at 2,700,000, which is not `idle_time + interval` for either
moment of the hide sequence — so the re-arm happens at trigger time, not
as a side effect of the Hiding-to-Idle transition. -/
theorem C3_counterexample :
    (animation_finish (hide_overlay (trigger_reminder exC3 0 0))).visible = false ∧
    (animation_finish (hide_overlay (trigger_reminder exC3 0 0))).next_reminder
      = (trigger_reminder exC3 0 0).next_reminder ∧
    (animation_finish (hide_overlay (trigger_reminder exC3 0 0))).reminder_deadline
      = (trigger_reminder exC3 0 0).reminder_deadline ∧
    (trigger_reminder exC3 0 0).next_reminder = 2700000 ∧
    (animation_finish (hide_overlay (trigger_reminder exC3 0 0))).next_reminder ≠ 15000 + 2700000 ∧
    (animation_finish (hide_overlay (trigger_reminder exC3 0 0))).next_reminder ≠ 15200 + 2700000 := by
  decide

/-- Claim C3 (amended): in non-preview mode the Scheduler is re-armed as
a side effect of the reminder firing — `trigger_reminder` derives the
next `fires_at` from the trigger time `now` before showing the overlay —
while `hide_overlay` and the exit-animation completion (the
Hiding-to-Idle transition) leave both the stored `next_reminder` and the
armed reminder deadline unchanged.  (Manual dismissal re-arms via
`mousePressEvent`, a separate path.) -/
theorem C3_rearm_at_trigger_not_on_hide (s : Overlay) (now draw : Int)
    (hp : s.preview = false) :
    ((trigger_reminder s now draw).next_reminder =
       now + max 1000 (s.cfg_interval + (if s.cfg_random_offset > 0 then draw else 0))) ∧
    ((trigger_reminder s now draw).reminder_deadline =
       some ((trigger_reminder s now draw).next_reminder)) ∧
    (hide_overlay s).next_reminder = s.next_reminder ∧
    (hide_overlay s).reminder_deadline = s.reminder_deadline ∧
    (animation_finish s).next_reminder = s.next_reminder ∧
    (animation_finish s).reminder_deadline = s.reminder_deadline := by
  have hsch : ∀ t d, (schedule_next_reminder s t d).next_reminder
      = t + max 1000 (s.cfg_interval + (if s.cfg_random_offset > 0 then d else 0)) ∧
      (schedule_next_reminder s t d).reminder_deadline
      = some (t + max 1000 (s.cfg_interval + (if s.cfg_random_offset > 0 then d else 0))) := by
    intro t d
    simp only [schedule_next_reminder, hp, Bool.false_eq_true, if_false]
    exact ⟨by trivial, by trivial⟩
  refine ⟨?_, ?_, ?_, ?_, ?_, ?_⟩
  · simp only [trigger_reminder, hp, Bool.false_eq_true, if_false]
    rw [(show_overlay_schedule _ _).1, (hsch now draw).1]
  · simp only [trigger_reminder, hp, Bool.false_eq_true, if_false]
    rw [(show_overlay_schedule _ _).2, (hsch now draw).2,
        (show_overlay_schedule _ _).1, (hsch now draw).1]
  · simp only [hide_overlay, hp, Bool.false_eq_true, if_false]
    split_ifs <;> simp
  · simp only [hide_overlay, hp, Bool.false_eq_true, if_false]
    split_ifs <;> simp
  · unfold animation_finish
    cases h : s.active_animation with
    | none => rfl
    | some a => cases a <;> rfl
  · unfold animation_finish
    cases h : s.active_animation with
    | none => rfl
    | some a => cases a <;> rfl

/-- Witness for C3: a trigger at time 100 arms the 45-minute schedule
from the trigger time, and hiding preserves the schedule. -/
theorem C3_witness :
    (trigger_reminder exC3 100 0).next_reminder = 2700100 ∧
    (hide_overlay exC3).next_reminder = exC3.next_reminder := by
  have h := C3_rearm_at_trigger_not_on_hide exC3 100 0 (by decide)
  refine ⟨?_, h.2.2.1⟩
  rw [h.1]
  decide

/-- Claim C4: over any sequence of animator events whose started run ids
are distinct, a run cancelled by a later `_start_animation` call never
has its completion callback invoked, and every completion callback runs
at most once (callbacks are recorded only by the natural-completion
step). -/
theorem C4_cancelled_run_never_fires (events : List AnimatorEvent)
    (hn : (startIds events).Nodup) :
    (∀ id ∈ (animator_run events).cancelled, id ∉ (animator_run events).fired) ∧
    (∀ id, ((animator_run events).fired).count id ≤ 1) := by
  have h : AnimatorInv (animator_run events) := by
    refine foldl_inv events ⟨Option.none, [], []⟩ hn ?_ ?_
    · intro id hmem
      simp [stateIds]
    · exact ⟨List.nodup_nil, by simp, by simp⟩
  exact ⟨h.2.1, fun id => List.nodup_iff_count_le_one.mp h.1 id⟩

/-- Witness for C4: run 1 is superseded by run 2, which then completes;
run 1 is cancelled and its callback never fires. -/
theorem C4_witness :
    (startIds [AnimatorEvent.start 1, AnimatorEvent.start 2, AnimatorEvent.finish]).Nodup ∧
    1 ∈ (animator_run [AnimatorEvent.start 1, AnimatorEvent.start 2, AnimatorEvent.finish]).cancelled ∧
    1 ∉ (animator_run [AnimatorEvent.start 1, AnimatorEvent.start 2, AnimatorEvent.finish]).fired := by
  refine ⟨by decide, by decide, ?_⟩
  exact (C4_cancelled_run_never_fires _ (by decide)).1 1 (by decide)

/-- Claim C5 counterexample: calling `hide_overlay` while the overlay is
already idle (hidden) is not a no-op — it stops the running sprite-tick
timer (and starts an exit-animation run for the fade/slide/pop styles),
so the observable state changes. -/
theorem C5_counterexample :
    exC5.preview = false ∧ exC5.visible = false ∧
    hide_overlay exC5 ≠ exC5 ∧
    (hide_overlay exC5).anim_timer_active ≠ exC5.anim_timer_active := by
  decide

/-- Claim C5 (amended): calling `hide_overlay` while already idle
(hidden, non-preview) leaves visibility, the pending reminder schedule
(`next_reminder` and the armed deadline) and the displayed frame
unchanged; it is not a full no-op, however: the sprite-tick timer is
stopped and the auto-hide timer cleared (and, for fade/slide/pop
styles, an exit run is started). -/
theorem C5_hide_while_idle_partial_noop (s : Overlay)
    (hp : s.preview = false) (hv : s.visible = false) :
    (hide_overlay s).visible = false ∧
    (hide_overlay s).next_reminder = s.next_reminder ∧
    (hide_overlay s).reminder_deadline = s.reminder_deadline ∧
    (hide_overlay s).animation_index = s.animation_index ∧
    (hide_overlay s).anim_timer_active = false ∧
    (hide_overlay s).auto_hide_deadline = Option.none := by
  simp only [hide_overlay, hp, Bool.false_eq_true, if_false]
  split_ifs <;> simp_all

/-- Witness for C5 at the concrete idle state. -/
theorem C5_witness :
    (hide_overlay exC5).visible = false ∧
    (hide_overlay exC5).next_reminder = exC5.next_reminder ∧
    (hide_overlay exC5).reminder_deadline = exC5.reminder_deadline := by
  have h := C5_hide_while_idle_partial_noop exC5 (by decide) (by decide)
  exact ⟨h.1, h.2.1, h.2.2.1⟩

/-- Claim C6: the countdown formatter renders `"now"` for a remaining
time of zero or less; for positive remaining time it shows hours only
when nonzero, always shows minutes once hours are shown (and no
seconds), shows seconds exactly when hours are zero; in particular
3,661,000 ms renders `"1h 1m"` and 0 ms renders `"now"`. -/
theorem C6_format_short_duration_spec (ms : Int) :
    (ms ≤ 0 → format_short_duration ms = "now") ∧
    (0 < ms →
      (Int.fdiv (Int.fdiv ms 1000) 3600 ≠ 0 →
        format_short_duration ms = String.intercalate " "
          [toString (Int.fdiv (Int.fdiv ms 1000) 3600) ++ "h",
           toString (Int.fdiv (Int.fmod (Int.fdiv ms 1000) 3600) 60) ++ "m"]) ∧
      (Int.fdiv (Int.fdiv ms 1000) 3600 = 0 →
       Int.fdiv (Int.fmod (Int.fdiv ms 1000) 3600) 60 ≠ 0 →
        format_short_duration ms = String.intercalate " "
          [toString (Int.fdiv (Int.fmod (Int.fdiv ms 1000) 3600) 60) ++ "m",
           toString (Int.fmod (Int.fmod (Int.fdiv ms 1000) 3600) 60) ++ "s"]) ∧
      (Int.fdiv (Int.fdiv ms 1000) 3600 = 0 →
       Int.fdiv (Int.fmod (Int.fdiv ms 1000) 3600) 60 = 0 →
        format_short_duration ms = toString (Int.fmod (Int.fmod (Int.fdiv ms 1000) 3600) 60) ++ "s")) ∧
    format_short_duration 3661000 = "1h 1m" ∧
    format_short_duration 0 = "now" := by
  refine ⟨fun h => by simp [format_short_duration, h], fun hpos => ?_, by decide, by decide⟩
  have hns : ¬ ms ≤ 0 := by omega
  refine ⟨?_, ?_, ?_⟩ <;> intro h1 <;>
    simp only [format_short_duration, if_neg hns] <;>
    split_ifs <;> simp_all [intercalate_two, intercalate_one]

/-- Witness for C6: a negative remaining time renders `"now"`, and the
3,661,000 ms scenario renders `"1h 1m"`. -/
theorem C6_witness :
    format_short_duration (-5) = "now" ∧ format_short_duration 3661000 = "1h 1m" := by
  exact ⟨(C6_format_short_duration_spec (-5)).1 (by decide),
         (C6_format_short_duration_spec 0).2.2.1⟩

/-- Claim C7 counterexample: with margins exceeding the free space the
clamp overrides the anchor rule.  On screen `(0,0,1920,1080)` with
overlay `(360,180)`, anchor bottom-right and `margin_x = 2000`, the
resolver returns `x = 0`, so the right edge of the overlay is not
`margin_x` from the right screen edge as claimed for all non-negative
margins. -/
theorem C7_counterexample :
    strContains "bottom_right" "right" = true ∧
    (position_overlay ⟨0, 0, 1920, 1080⟩ 360 180 "bottom_right" 2000 16).1 = 0 ∧
    (position_overlay ⟨0, 0, 1920, 1080⟩ 360 180 "bottom_right" 2000 16).1 + 360 + 2000
      ≠ 0 + 1920 := by
  decide

/-- Claim C7 (amended): whenever the margins are non-negative and leave
room for the overlay (`margin + extent ≤ screen extent` per axis),
right-anchored corners place the right overlay edge `margin_x` from the
right screen edge, left-anchored corners place the left edge `margin_x`
from the left edge, and vertically likewise with `margin_y`; the
bottom-right scenario on `(0,0,1920,1080)` with overlay `(360,180)` and
margins `(16,16)` resolves to `(1544, 884)`. -/
theorem C7_anchor_placement_when_margins_fit (geo : Rect) (width height : Int)
    (position : String) (mx my : Int)
    (hx0 : 0 ≤ mx) (hx : mx + width ≤ geo.width)
    (hy0 : 0 ≤ my) (hy : my + height ≤ geo.height) :
    ((strContains position "right" = true →
        (position_overlay geo width height position mx my).1 + width + mx = geo.x + geo.width) ∧
     (strContains position "right" = false →
        (position_overlay geo width height position mx my).1 = geo.x + mx) ∧
     (strContains position "bottom" = true →
        (position_overlay geo width height position mx my).2 + height + my = geo.y + geo.height) ∧
     (strContains position "bottom" = false →
        (position_overlay geo width height position mx my).2 = geo.y + my)) ∧
    position_overlay ⟨0, 0, 1920, 1080⟩ 360 180 "bottom_right" 16 16 = (1544, 884) := by
  refine ⟨?_, by decide⟩
  simp only [position_overlay]
  split_ifs <;> simp_all [Int.max_def, Int.min_def] <;> split_ifs <;> omega

/-- Witness for C7 on the standard full-HD bottom-right scenario. -/
theorem C7_witness :
    (position_overlay ⟨0, 0, 1920, 1080⟩ 360 180 "bottom_right" 16 16).1 + 360 + 16
      = 0 + 1920 ∧
    (position_overlay ⟨0, 0, 1920, 1080⟩ 360 180 "bottom_right" 16 16).2 + 180 + 16
      = 0 + 1080 := by
  have h := C7_anchor_placement_when_margins_fit ⟨0, 0, 1920, 1080⟩ 360 180 "bottom_right"
    16 16 (by decide) (by decide) (by decide) (by decide)
  exact ⟨h.1.1 (by decide), h.1.2.2.1 (by decide)⟩

/-- Claim C8 counterexample, on two counts.  Out-of-range values are
kept, not defaulted: `overlay_opacity` is documented in the source as
ranging over `0.0 - 1.0`, yet deserializing an opacity of `5.0` keeps
`5.0`, above the documented range and different from the default `1.0`.
And the function is not raise-free: an `Infinity` value (admitted by
`json.loads`) for an int field makes `int()` raise `OverflowError`,
which `get_int` does not catch, so `from_dict` itself raises. -/
theorem C8_counterexample :
    AppConfig.from_dict (PyVal.dict [("overlay_opacity", PyVal.float (PyFloat.finite 5 0))])
      = Except.ok (AppConfig.from_dict_fieldwise
          [("overlay_opacity", PyVal.float (PyFloat.finite 5 0))]) ∧
    (AppConfig.from_dict_fieldwise
        [("overlay_opacity", PyVal.float (PyFloat.finite 5 0))]).overlay_opacity
      = PyFloat.finite 5 0 ∧
    AppConfig.default.overlay_opacity = PyFloat.finite 1 0 ∧
    PyFloat.finite 5 0 ≠ AppConfig.default.overlay_opacity ∧
    AppConfig.from_dict (PyVal.dict [("reminder_interval_ms", PyVal.float PyFloat.inf)])
      = Except.error PyExc.overflowError := by
  refine ⟨rfl, rfl, rfl, by decide, rfl⟩

/-- Claim C8 (amended): non-dict input yields the full default
configuration; whenever `from_dict` returns a configuration, every
field equals its independent extraction from its own key (so one bad
field never invalidates the rest), a wrong-type or unparsable field is
individually replaced by its default, and a coercible supplied value is
kept — with no range validation on numeric fields (out-of-range values
are kept; only color dicts are validity-checked).  `from_dict` is not
raise-free, however: an `OverflowError` from `int()` (infinite float)
or `float()` (integer beyond double range) is not caught by the
`get_int` / `get_float` helpers and aborts deserialization, shown here
for the first assigned field. -/
theorem C8_from_dict_fieldwise_defaulting (v : PyVal) (d : List (String × PyVal)) (c : AppConfig) :
    (v.isDict = false → AppConfig.from_dict v = Except.ok AppConfig.default) ∧
    (AppConfig.from_dict (PyVal.dict d) = Except.ok c → c = AppConfig.from_dict_fieldwise d) ∧
    (py_int_conv (dictGet d "reminder_interval_ms" (PyVal.int 2700000))
        = Except.error PyExc.overflowError →
      AppConfig.from_dict (PyVal.dict d) = Except.error PyExc.overflowError) ∧
    (∀ e, AppConfig.from_dict (PyVal.dict d) = Except.ok c →
      py_int_conv (dictGet d "margin_x" (PyVal.int 16)) = Except.error e →
      c.margin_x = 16) ∧
    (∀ n, AppConfig.from_dict (PyVal.dict d) = Except.ok c →
      py_int_conv (dictGet d "margin_x" (PyVal.int 16)) = Except.ok n →
      c.margin_x = n) ∧
    (∀ f, AppConfig.from_dict (PyVal.dict d) = Except.ok c →
      py_float_conv (dictGet d "overlay_opacity" (PyVal.float (PyFloat.finite 1 0)))
        = Except.ok f →
      c.overlay_opacity = f) := by
  have hfw : AppConfig.from_dict (PyVal.dict d) = Except.ok c →
      c = AppConfig.from_dict_fieldwise d := by
    intro h
    simp only [AppConfig.from_dict] at h
    obtain ⟨v1, h1, h⟩ := except_bind_ok h
    obtain ⟨v2, h2, h⟩ := except_bind_ok h
    obtain ⟨v3, h3, h⟩ := except_bind_ok h
    obtain ⟨v4, h4, h⟩ := except_bind_ok h
    obtain ⟨v5, h5, h⟩ := except_bind_ok h
    obtain ⟨v6, h6, h⟩ := except_bind_ok h
    obtain ⟨v7, h7, h⟩ := except_bind_ok h
    obtain ⟨v8, h8, h⟩ := except_bind_ok h
    obtain ⟨v9, h9, h⟩ := except_bind_ok h
    obtain ⟨v10, h10, h⟩ := except_bind_ok h
    obtain ⟨v11, h11, h⟩ := except_bind_ok h
    obtain ⟨v12, h12, h⟩ := except_bind_ok h
    obtain ⟨v13, h13, h⟩ := except_bind_ok h
    obtain ⟨v14, h14, h⟩ := except_bind_ok h
    obtain ⟨v15, h15, h⟩ := except_bind_ok h
    obtain ⟨v16, h16, h⟩ := except_bind_ok h
    obtain ⟨v17, h17, h⟩ := except_bind_ok h
    obtain ⟨v18, h18, h⟩ := except_bind_ok h
    obtain ⟨v19, h19, h⟩ := except_bind_ok h
    obtain ⟨v20, h20, h⟩ := except_bind_ok h
    obtain ⟨v21, h21, h⟩ := except_bind_ok h
    obtain ⟨v22, h22, h⟩ := except_bind_ok h
    injection h with h
    subst h
    unfold AppConfig.from_dict_fieldwise
    simp only [AppConfig.mk.injEq]
    exact ⟨(cfg_int_ok h1).symm, (cfg_int_ok h2).symm, (cfg_int_ok h3).symm, by trivial,
           (cfg_int_ok h4).symm, by trivial, by trivial,
           (cfg_int_ok h5).symm, (cfg_int_ok h6).symm, (cfg_int_ok h7).symm,
           (cfg_int_ok h8).symm, (cfg_int_ok h9).symm, (cfg_float_ok h10).symm,
           (cfg_int_ok h11).symm, (cfg_color_ok h12).symm, (cfg_color_ok h13).symm,
           (cfg_color_ok h14).symm, (cfg_color_ok h15).symm, by trivial,
           (cfg_int_ok h16).symm, (cfg_color_ok h17).symm, by trivial,
           (cfg_int_ok h18).symm, (cfg_float_ok h19).symm, (cfg_color_ok h20).symm,
           by trivial, by trivial, (cfg_int_ok h21).symm, (cfg_color_ok h22).symm,
           by trivial, by trivial, by trivial, by trivial⟩
  refine ⟨?_, hfw, ?_, ?_, ?_, ?_⟩
  · intro hv
    cases v <;> first | rfl | simp [PyVal.isDict] at hv
  · intro h
    have h2 : pyGetInt d "reminder_interval_ms" AppConfig.default.reminder_interval_ms
        = Except.error PyExc.overflowError := by
      unfold pyGetInt
      rw [show py_int_conv (dictGet d "reminder_interval_ms"
            (PyVal.int AppConfig.default.reminder_interval_ms))
          = Except.error PyExc.overflowError from h]
    simp only [AppConfig.from_dict]
    rw [h2]
    rfl
  · intro e hok hconv
    rw [hfw hok]
    show cfg_int d "margin_x" 16 = 16
    unfold cfg_int
    rw [show py_int_conv (dictGet d "margin_x" (PyVal.int 16)) = Except.error e from hconv]
  · intro n hok hconv
    rw [hfw hok]
    show cfg_int d "margin_x" 16 = n
    unfold cfg_int
    rw [show py_int_conv (dictGet d "margin_x" (PyVal.int 16)) = Except.ok n from hconv]
  · intro f hok hconv
    rw [hfw hok]
    show cfg_float d "overlay_opacity" (PyFloat.finite 1 0) = f
    unfold cfg_float
    rw [show py_float_conv (dictGet d "overlay_opacity" (PyVal.float (PyFloat.finite 1 0)))
        = Except.ok f from hconv]

/-- Witness for C8: a string input falls back to the full defaults; an
uncoercible `margin_x` is defaulted to 16 while an underscore-grouped
numeric string is kept as CPython parses it; an exponent-form opacity
string is kept; minus-Infinity for an int field aborts with
`OverflowError`. -/
theorem C8_witness :
    AppConfig.from_dict (PyVal.str "nope") = Except.ok AppConfig.default ∧
    (AppConfig.from_dict_fieldwise [("margin_x", PyVal.list [])]).margin_x = 16 ∧
    (AppConfig.from_dict_fieldwise [("margin_x", PyVal.str "1_0")]).margin_x = 10 ∧
    (AppConfig.from_dict_fieldwise [("overlay_opacity", PyVal.str "1e5")]).overlay_opacity
      = PyFloat.finite 100000 0 ∧
    AppConfig.from_dict (PyVal.dict [("reminder_interval_ms", PyVal.float PyFloat.ninf)])
      = Except.error PyExc.overflowError := by
  refine ⟨(C8_from_dict_fieldwise_defaulting (PyVal.str "nope") [] AppConfig.default).1 rfl,
          (C8_from_dict_fieldwise_defaulting PyVal.none [("margin_x", PyVal.list [])]
            (AppConfig.from_dict_fieldwise [("margin_x", PyVal.list [])])).2.2.2.1
            PyExc.typeError (by rfl) (by rfl),
          (C8_from_dict_fieldwise_defaulting PyVal.none [("margin_x", PyVal.str "1_0")]
            (AppConfig.from_dict_fieldwise [("margin_x", PyVal.str "1_0")])).2.2.2.2.1
            10 (by rfl) (by rfl),
          (C8_from_dict_fieldwise_defaulting PyVal.none [("overlay_opacity", PyVal.str "1e5")]
            (AppConfig.from_dict_fieldwise [("overlay_opacity", PyVal.str "1e5")])).2.2.2.2.2
            (PyFloat.finite 100000 0) (by rfl) (by rfl),
          (C8_from_dict_fieldwise_defaulting PyVal.none
            [("reminder_interval_ms", PyVal.float PyFloat.ninf)] AppConfig.default).2.2.1 rfl⟩

/-- Claim C9: the interval formatter renders whole hours and minutes,
omitting zero components (with correct pluralization), and returns
`"less than a minute"` when both are zero; 2,700,000 ms renders
`"45 minutes"`. -/
theorem C9_format_interval_spec (ms : Int) :
    (Int.fdiv (max 0 (Int.fdiv ms 60000)) 60 = 0 →
     Int.fmod (max 0 (Int.fdiv ms 60000)) 60 = 0 →
      format_interval ms = "less than a minute") ∧
    (Int.fdiv (max 0 (Int.fdiv ms 60000)) 60 ≠ 0 →
     Int.fmod (max 0 (Int.fdiv ms 60000)) 60 = 0 →
      format_interval ms = toString (Int.fdiv (max 0 (Int.fdiv ms 60000)) 60) ++ " hour" ++
        (if Int.fdiv (max 0 (Int.fdiv ms 60000)) 60 ≠ 1 then "s" else "")) ∧
    (Int.fdiv (max 0 (Int.fdiv ms 60000)) 60 = 0 →
     Int.fmod (max 0 (Int.fdiv ms 60000)) 60 ≠ 0 →
      format_interval ms = toString (Int.fmod (max 0 (Int.fdiv ms 60000)) 60) ++ " minute" ++
        (if Int.fmod (max 0 (Int.fdiv ms 60000)) 60 ≠ 1 then "s" else "")) ∧
    (Int.fdiv (max 0 (Int.fdiv ms 60000)) 60 ≠ 0 →
     Int.fmod (max 0 (Int.fdiv ms 60000)) 60 ≠ 0 →
      format_interval ms = String.intercalate " "
        [toString (Int.fdiv (max 0 (Int.fdiv ms 60000)) 60) ++ " hour" ++
           (if Int.fdiv (max 0 (Int.fdiv ms 60000)) 60 ≠ 1 then "s" else ""),
         toString (Int.fmod (max 0 (Int.fdiv ms 60000)) 60) ++ " minute" ++
           (if Int.fmod (max 0 (Int.fdiv ms 60000)) 60 ≠ 1 then "s" else "")]) ∧
    format_interval 2700000 = "45 minutes" := by
  refine ⟨?_, ?_, ?_, ?_, by decide⟩ <;> intro h1 h2 <;>
    simp only [format_interval] <;>
    split_ifs <;> simp_all [intercalate_two, intercalate_one]

/-- Witness for C9: 30 s renders `"less than a minute"`, and the 45-min
scenario renders `"45 minutes"`. -/
theorem C9_witness :
    format_interval 30000 = "less than a minute" ∧
    format_interval 2700000 = "45 minutes" := by
  exact ⟨(C9_format_interval_spec 30000).1 (by decide) (by decide),
         (C9_format_interval_spec 0).2.2.2.2⟩

/-- Claim C10: for every screen geometry, overlay extent, anchor string
and margins, the resolved position never lies left of or above the
screen origin (the outer `max` of the clamp wins), and when the overlay
is wider (taller) than the screen the horizontal (vertical) coordinate
is pinned exactly to the screen origin, letting the overlay overflow
only past the right/bottom edges. -/
theorem C10_clamp_pins_top_left (geo : Rect) (width height : Int)
    (position : String) (mx my : Int) :
    geo.x ≤ (position_overlay geo width height position mx my).1 ∧
    geo.y ≤ (position_overlay geo width height position mx my).2 ∧
    (geo.width < width → (position_overlay geo width height position mx my).1 = geo.x) ∧
    (geo.height < height → (position_overlay geo width height position mx my).2 = geo.y) := by
  simp only [position_overlay]
  split_ifs <;> simp [Int.max_def, Int.min_def] <;> split_ifs <;> omega

/-- Witness for C10: an oversized overlay on a 100 by 100 screen is
pinned to the origin. -/
theorem C10_witness :
    (position_overlay ⟨0, 0, 100, 100⟩ 200 300 "top_left" 5 5).1 = 0 ∧
    (position_overlay ⟨0, 0, 100, 100⟩ 200 300 "top_left" 5 5).2 = 0 := by
  have h := C10_clamp_pins_top_left ⟨0, 0, 100, 100⟩ 200 300 "top_left" 5 5
  exact ⟨h.2.2.1 (by decide), h.2.2.2 (by decide)⟩
